import Mathlib

/-!
# Master of Muppets — verification of the firmware core

Shallow embedding of the firmware core of the USB-MIDI to CV bridge
(`src/firmware` and `src/master_of_muppets`), together with theorems that
settle the behavioural claims about it.

Machine integers are modelled as `Nat`/`Int` with explicit reductions
modulo `2^8`, `2^16` or `2^32` exactly where the C++ code performs
unsigned arithmetic that can wrap.
-/

namespace MasterOfMuppets

/-! ## Constants from `dr_teeth.h` -/

/-- `dr_teeth::k_dac_count` -/
def k_dac_count : Nat := 2

/-- `dr_teeth::k_channels_per_dac` -/
def k_channels_per_dac : Nat := 8

/-- `dr_teeth::k_total_channels = k_dac_count * k_channels_per_dac` -/
def k_total_channels : Nat := 16

/-- `dr_teeth::k_max_value = 64 * 1024 - 1` -/
def k_max_value : Nat := 65535

/-- `dr_teeth::k_midi_pitch_zero_offset` -/
def k_midi_pitch_zero_offset : Int := 8192

/-- `dr_teeth::k_midi_pitch_14_bit_max` -/
def k_midi_pitch_14_bit_max : Int := 0x3FFF

/-- `dr_teeth::k_midi_to_framework_scale` -/
def k_midi_to_framework_scale : Int := 4

/-- 2^32, the modulus of `uint32_t` arithmetic. -/
def u32 : Nat := 4294967296

/-! ## MIDI ingress (`set_channel_value` in `firmware/src/main.cpp`, lines 174-192)

The handler receives a 1-based `uint8_t` channel index and a signed pitch
value.  `channel_index -= 1` is unsigned 8-bit arithmetic, so index 0 wraps
to 255.  The stored value is
`static_cast<uint16_t>( min( pitch + 8192, 0x3FFF ) * 4 )`. -/

/-- `static_cast<uint16_t>` of a signed C++ value: reduce modulo 2^16. -/
def toUInt16 (z : Int) : Nat := (z % 65536).toNat

/-- The 14-bit-to-16-bit pitch scaling applied by `set_channel_value`:
`min( pitch + k_midi_pitch_zero_offset, k_midi_pitch_14_bit_max ) * k_midi_to_framework_scale`
cast to `uint16_t`. -/
def midi_scale (pitch : Int) : Nat :=
  toUInt16 (min (pitch + k_midi_pitch_zero_offset) k_midi_pitch_14_bit_max
            * k_midi_to_framework_scale)

/-- `set_channel_value( uint8_t channel_index, int pitch )` acting on
`dr_teeth::input_buffer` (a 16-cell row of `uint16_t`), from
`firmware/src/main.cpp` lines 174-192.  The caller's `channel_index` is a
`uint8_t`, embedded as a `Nat < 256`. -/
def set_channel_value (channel_index : Nat) (pitch : Int)
    (input_buffer : List Nat) : List Nat :=
  let ci := (channel_index + 255) % 256
  if k_total_channels ≤ ci then
    input_buffer
  else
    input_buffer.set ci (midi_scale pitch)

/-! ## AD5593R driver adapter (`rob_tillaart_ad_5993r`)

`dac_value_rescale` (header line 46) computes
`static_cast<value_t>( static_cast<uint32_t>( value ) * k_max_val / dr_teeth::k_max_value )`:
a 32-bit multiply, a 32-bit divide, then a cast back to `uint16_t`.
`set_values` (source lines 61-65) issues `writeDAC( ch, dac_value_rescale( values[ch] ) )`
for each of the 8 channels in order. -/

/-- `rob_tillaart_ad_5993r::k_max_val` -/
def k_max_val : Nat := 4095

/-- `rob_tillaart_ad_5993r::dac_value_rescale`, with the `uint32_t`
multiplication and the final `uint16_t` cast made explicit. -/
def dac_value_rescale (value : Nat) : Nat :=
  ((value * k_max_val) % u32 / k_max_value) % 65536

/-- The spec's formula for the rescale, for comparison with the code:
`out = (value × chip_max) / 0xFFFF` in exact integer arithmetic. -/
def dac_value_rescale_spec (value : Nat) : Nat := value * 4095 / 0xFFFF

/-- `rob_tillaart_ad_5993r::set_values`: the sequence of
`(channel, rescaled value)` register writes issued for one DAC. -/
def set_values (values : Fin 8 → Nat) : List (Nat × Nat) :=
  (List.finRange 8).map (fun ch => (ch.val, dac_value_rescale (values ch)))

/-! ## Error / recovery policy (`dma_diagnostics::dma_error_handler`)

From `firmware/include/dma_error_handler.h` and
`firmware/src/dma_error_handler.cpp`. -/

/-- `drivers::dma_i2c_hal::error_code_t` -/
inductive error_code_t where
  | success
  | busy
  | timeout
  | nak_received
  | arbitration_lost
  | dma_error
  | invalid_parameter
  | not_initialized
deriving DecidableEq, Repr

/-- `dma_error_handler::error_severity_t` -/
inductive error_severity_t where
  | info
  | warning
  | error
  | critical
  | fatal
deriving DecidableEq, Repr

/-- `dma_error_handler::recovery_strategy_t` -/
inductive recovery_strategy_t where
  | none
  | retry_immediate
  | retry_with_delay
  | fallback_to_sync
  | reset_peripheral
  | system_restart
deriving DecidableEq, Repr

/-- `dma_error_handler::error_event_t` (the fields the policy reads/writes). -/
structure error_event_t where
  timestamp_us : Nat
  error_code : error_code_t
  severity : error_severity_t
  recovery : recovery_strategy_t
  dac_index : Nat
  retry_count : Nat
deriving DecidableEq, Repr

/-- `dma_error_handler::recovery_state_t`, plus the `static uint32_t
success_counter[4]` local of `notify_success` (it is persistent state of the
same policy, lexically scoped inside that function). -/
structure recovery_state_t where
  consecutive_errors : Fin 4 → Nat
  last_error_time : Fin 4 → Nat
  fallback_mode : Fin 4 → Bool
  success_counter : Fin 4 → Nat

/-- The zero-initialized `recovery_state_t` (header constructor) with the
`success_counter` statics also zero. -/
def recovery_state_init : recovery_state_t :=
  ⟨fun _ => 0, fun _ => 0, fun _ => false, fun _ => 0⟩

/-- `handle_error` clamps `dac_index >= 4` to 0 (`dma_error_handler.cpp`
lines 32-34). -/
def clamp_dac (dac_index : Nat) : Fin 4 :=
  if h : dac_index < 4 then ⟨dac_index, h⟩ else ⟨0, by decide⟩

/-- `dma_error_handler::assess_error_severity` (`dma_error_handler.cpp`
lines 173-204). -/
def assess_error_severity (error_code : error_code_t) (retry_count : Nat) :
    error_severity_t :=
  match error_code with
  | .success => .info
  | .busy => if retry_count > 2 then .warning else .info
  | .timeout => if retry_count > 3 then .error else .warning
  | .nak_received => if retry_count > 2 then .error else .warning
  | .arbitration_lost => .warning
  | .dma_error => if retry_count > 1 then .critical else .error
  | .invalid_parameter => .critical
  | .not_initialized => .fatal

/-- `dma_error_handler::determine_recovery_strategy` (`dma_error_handler.cpp`
lines 206-244); `max_retry_attempts` is `config_.max_retry_attempts`.
The `error_event` passed by `handle_error` carries the clamped DAC index. -/
def determine_recovery_strategy (rs : recovery_state_t)
    (max_retry_attempts : Nat) (error_code : error_code_t)
    (dac_index : Fin 4) (retry_count : Nat) : recovery_strategy_t :=
  match error_code with
  | .busy =>
      if retry_count < 2 then .retry_with_delay else .fallback_to_sync
  | .timeout =>
      if retry_count < max_retry_attempts then .retry_with_delay
      else .fallback_to_sync
  | .nak_received =>
      if retry_count < 3 then .retry_immediate else .fallback_to_sync
  | .arbitration_lost => .retry_with_delay
  | .dma_error =>
      if retry_count = 0 then .retry_immediate
      else if rs.consecutive_errors dac_index > 5 then .reset_peripheral
      else .fallback_to_sync
  | .not_initialized => .system_restart
  | .invalid_parameter => .system_restart
  | .success => .fallback_to_sync

/-- `dma_error_handler::handle_error` (`dma_error_handler.cpp` lines 26-57):
clamp the DAC index, build the event (severity and recovery strategy are
computed from the state *before* the bookkeeping), then increment the
`uint8_t` consecutive-error counter and stamp the error time.  Returns the
event (whose `recovery` field is the function's return value) and the new
state. -/
def handle_error (rs : recovery_state_t) (max_retry_attempts : Nat)
    (error_code : error_code_t) (dac_index : Nat) (retry_count : Nat)
    (now : Nat) : error_event_t × recovery_state_t :=
  let d := clamp_dac dac_index
  let event : error_event_t :=
    { timestamp_us := now
      error_code := error_code
      severity := assess_error_severity error_code retry_count
      recovery := determine_recovery_strategy rs max_retry_attempts error_code d retry_count
      dac_index := d.val
      retry_count := retry_count }
  let rs' : recovery_state_t :=
    { rs with
      consecutive_errors := fun i =>
        if i = d then (rs.consecutive_errors d + 1) % 256
        else rs.consecutive_errors i
      last_error_time := fun i =>
        if i = d then now else rs.last_error_time i }
  (event, rs')

/-- `dma_error_handler::notify_success` (`dma_error_handler.cpp` lines
138-158): zero the consecutive-error count; while in fallback mode increment
the success counter, and once the counter exceeds 10 clear fallback mode and
zero the counter.  Indices `>= 4` return with no effect. -/
def notify_success (rs : recovery_state_t) (dac_index : Nat) :
    recovery_state_t :=
  if h : dac_index < 4 then
    let d : Fin 4 := ⟨dac_index, h⟩
    let rs1 : recovery_state_t :=
      { rs with consecutive_errors := fun i =>
          if i = d then 0 else rs.consecutive_errors i }
    if rs1.fallback_mode d then
      let cnt := rs1.success_counter d + 1
      if cnt > 10 then
        { rs1 with
          fallback_mode := fun i => if i = d then false else rs1.fallback_mode i
          success_counter := fun i => if i = d then 0 else rs1.success_counter i }
      else
        { rs1 with
          success_counter := fun i => if i = d then cnt else rs1.success_counter i }
    else rs1
  else rs

/-! ## Asynchronous I²C transfer engine (`drivers::dma_i2c_hal`)

From `firmware/include/drivers/dma_i2c_hal.h` and
`firmware/src/drivers/dma_i2c_hal.cpp`.  Function pointers are embedded as
`Option Nat` tokens (the engine only stores and forwards them); `void*`
user data likewise as a `Nat` token.  Callback invocations performed by the
engine's worker thread are returned explicitly as a list of
`(callback token, state, error)` events. -/

/-- `dma_i2c_hal::transfer_state_t` -/
inductive transfer_state_t where
  | idle
  | dma_in_progress
  | completed
  | error_timeout
  | error_nak
  | error_arbitration
  | error_dma_failure
deriving DecidableEq, Repr

/-- `dma_i2c_hal::dma_i2c_transfer_t` (descriptor).  `has_data_buffer`
models `data_buffer != nullptr`. -/
structure dma_i2c_transfer_t where
  has_data_buffer : Bool
  data_length : Nat
  register_address : Nat
  is_write_operation : Bool
  slave_address_override : Nat
deriving DecidableEq, Repr

/-- `dma_i2c_hal::dma_i2c_handle_t` (the fields the async control path
touches).  `callback = Option.none` models a null callback pointer. -/
structure dma_i2c_handle_t where
  callback : Option Nat
  state : transfer_state_t
  last_error : error_code_t
  user_data : Nat
  transfer_start_time : Nat
  async_operation_pending : Bool
  async_operation_complete : Bool
  pending_transfer : dma_i2c_transfer_t
deriving DecidableEq, Repr

/-- The engine: `handle_` plus `initialized_`. -/
structure dma_i2c_hal where
  initialized : Bool
  handle : dma_i2c_handle_t
deriving DecidableEq, Repr

/-- `dma_i2c_hal::transfer_async` (`dma_i2c_hal.cpp` lines 63-93): reject
when uninitialized, busy while a transfer is in flight, validate the
descriptor and callback, then latch the transfer. `now` is `micros()`. -/
def transfer_async (hal : dma_i2c_hal) (transfer : dma_i2c_transfer_t)
    (callback : Option Nat) (user_data : Nat) (now : Nat) :
    error_code_t × dma_i2c_hal :=
  if !hal.initialized then
    (.not_initialized, hal)
  else if hal.handle.state = .dma_in_progress then
    (.busy, hal)
  else if !transfer.has_data_buffer || transfer.data_length = 0
          || callback = Option.none then
    (.invalid_parameter, hal)
  else
    (.success,
     { hal with handle :=
       { hal.handle with
         callback := callback
         user_data := user_data
         transfer_start_time := now
         pending_transfer := transfer
         async_operation_pending := true
         async_operation_complete := false
         state := .dma_in_progress
         last_error := .success } })

/-- `dma_i2c_hal::abort_transfer` (`dma_i2c_hal.cpp` lines 124-138). -/
def abort_transfer (hal : dma_i2c_hal) : error_code_t × dma_i2c_hal :=
  if !hal.initialized then
    (.not_initialized, hal)
  else if hal.handle.state = .dma_in_progress then
    (.success,
     { hal with handle :=
       { hal.handle with
         async_operation_pending := false
         async_operation_complete := true
         state := .error_dma_failure
         last_error := .dma_error } })
  else
    (.success, hal)

/-- One iteration of `dma_i2c_hal::async_worker_thread` (`dma_i2c_hal.cpp`
lines 140-171) on an initialized engine.  `transfer_result` is the outcome
of `perform_i2c_transfer` on the pending descriptor.  Returns the new
engine and the callback invocations made (each `(token, state, error)`). -/
def async_worker_step (hal : dma_i2c_hal) (transfer_result : error_code_t) :
    dma_i2c_hal × List (Nat × transfer_state_t × error_code_t) :=
  if hal.handle.async_operation_pending
      && !hal.handle.async_operation_complete then
    let st : transfer_state_t :=
      if transfer_result = .success then .completed else .error_dma_failure
    let err : error_code_t := transfer_result
    let handle' : dma_i2c_handle_t :=
      { hal.handle with
        state := st
        last_error := err
        async_operation_complete := true
        async_operation_pending := false }
    let events := match handle'.callback with
      | Option.some cb => [(cb, st, err)]
      | Option.none => []
    ({ hal with handle := handle' }, events)
  else
    (hal, [])

/-! ## DAC worker handshake (`electric_mayhem` / `electric_mayhem_dma`)

From `master_of_muppets/include/electric_mayhem.h` and
`firmware/include/electric_mayhem_dma.h`.  The worker-local
`last_processed_sequence` / `current_sequence` stack variables are passed
and returned explicitly; shared `muppet_state` fields live in a record.
`update_sequence` is a `uint32_t`. -/

/-- `electric_mayhem::muppet_state` (header lines 31-42). -/
structure muppet_state where
  update_requested : Bool
  update_in_progress : Bool
  update_sequence : Nat
deriving DecidableEq, Repr

/-- `electric_mayhem_dma::muppet_state_dma` (header lines 74-101), without
the opaque `async_manager` handle. -/
structure muppet_state_dma where
  update_requested : Bool
  update_in_progress : Bool
  update_sequence : Nat
  dma_operation_pending : Bool
  dma_operation_completed : Bool
  dma_completion_sequence : Nat
  dma_error_count : Nat
  last_dma_duration_us : Nat
deriving DecidableEq, Repr

/-- `electric_mayhem::throw_muppet_in_the_mud` /
`electric_mayhem_dma::throw_muppet_in_the_mud` on one DAC's state: a
`uint32_t` increment of `update_sequence` under the state mutex. -/
def throw_muppet_in_the_mud (st : muppet_state_dma) : muppet_state_dma :=
  { st with update_sequence := (st.update_sequence + 1) % u32 }

/-- One full iteration of `electric_mayhem::muppet_worker`
(`electric_mayhem.h` lines 81-115): observe the sequence, and if an update
is due, run the (always-successful) synchronous transfer and commit the
*observed* sequence.  Returns (new shared state, new
`last_processed_sequence`, whether a transfer was issued). -/
def muppet_worker_iteration (st : muppet_state) (last_processed : Nat) :
    muppet_state × Nat × Bool :=
  let current := st.update_sequence
  let should_update := (current != last_processed) && !st.update_in_progress
  if should_update then
    let st1 := { st with update_in_progress := true }
    -- memcpy of the slice under the channel lock, enable / set_values /
    -- disable; `operation_successful` is the constant `true` in the source
    let operation_successful := true
    let last' := if operation_successful then current else last_processed
    ({ st1 with update_in_progress := false }, last', true)
  else
    (st, last_processed, false)

/-- The observe-and-claim step of `electric_mayhem_dma::muppet_worker_dma`
(`electric_mayhem_dma.h` lines 196-209): read `update_sequence` under the
state mutex into the local `current_sequence`, decide `should_update`, and
set `update_in_progress` when claiming.  Returns (new shared state,
`should_update`, `current_sequence`). -/
def dma_issue_check (st : muppet_state_dma) (last_processed : Nat) :
    muppet_state_dma × Bool × Nat :=
  let current := st.update_sequence
  let should_update := (current != last_processed)
      && !st.update_in_progress && !st.dma_operation_pending
  if should_update then
    ({ st with update_in_progress := true }, true, current)
  else
    (st, false, current)

/-- The book-keeping after `initiate_async_update` succeeds
(`electric_mayhem_dma.h` lines 235-238). -/
def dma_async_started (st : muppet_state_dma) : muppet_state_dma :=
  { st with dma_operation_pending := true, dma_operation_completed := false }

/-- The synchronous commit of `muppet_worker_dma` — both the
DMA-failed-to-start fallback (lines 258-261) and the plain synchronous path
(lines 271-276): clear `update_in_progress` and set
`last_processed_sequence` to the observed `current_sequence`. -/
def dma_sync_commit (st : muppet_state_dma) (current : Nat) :
    muppet_state_dma × Nat :=
  ({ st with update_in_progress := false }, current)

/-- The DMA completion handler of `muppet_worker_dma`
(`electric_mayhem_dma.h` lines 163-192): clear the pending flags and
`update_in_progress`; on success set `last_processed_sequence` to
`my_state.update_sequence` *re-read at completion time* (not the observed
`current_sequence`), on failure bump the error count and leave
`last_processed_sequence` untouched.  `success` is
`!async_manager->has_operation_error()`; `duration` the measured DMA time.
Returns (new shared state, new `last_processed_sequence`). -/
def dma_completion_handler (st : muppet_state_dma) (last_processed : Nat)
    (success : Bool) (duration : Nat) : muppet_state_dma × Nat :=
  let st1 :=
    { st with
      dma_operation_pending := false
      dma_operation_completed := true
      last_dma_duration_us := duration
      update_in_progress := false }
  if success then
    ({ st1 with dma_completion_sequence := st1.update_sequence },
     st1.update_sequence)
  else
    ({ st1 with dma_error_count := st1.dma_error_count + 1 }, last_processed)

/-! ## Sequence-counter transition system (one DAC)

The operations that touch a DAC's sequence counters, as performed by the
code above: the dispatcher / refresh watchdog increments (`uint32_t`), and
the worker's observe / commit steps.  The per-DAC states are independent,
so the system models a single DAC.  The initial state is the one set by
`initialize` (`update_sequence = 1`, worker local
`last_processed_sequence = 0`). -/

/-- The sequence-counter view of one DAC's state: the shared `uint32_t`
`update_sequence`, the worker-local `last_processed_sequence` and
`current_sequence` (the observed value), and the `update_in_progress`
flag. -/
structure seq_state where
  update_sequence : Nat
  last_processed_sequence : Nat
  update_in_progress : Bool
  observed : Nat
deriving DecidableEq, Repr

/-- The state set by `electric_mayhem::initialize` /
`electric_mayhem_dma::initialize` before any thread runs:
`update_sequence = 1` ("request initial update") and the worker locals at
their declaration values. -/
def seq_init : seq_state := ⟨1, 0, false, 0⟩

/-- One step of any of the operations that touch the sequence counters. -/
inductive seq_step : seq_state → seq_state → Prop where
  /-- `throw_muppet_in_the_mud`: the dispatcher (via `go_muppets`) or the
  refresh watchdog (`shit_storm`) increments the `uint32_t`
  `update_sequence`. -/
  | bump (s : seq_state) :
      seq_step s { s with update_sequence := (s.update_sequence + 1) % u32 }
  /-- The worker observes a pending update and claims it
  (`muppet_worker` lines 83-91 / `muppet_worker_dma` lines 196-209). -/
  | observe (s : seq_state)
      (h1 : s.update_sequence ≠ s.last_processed_sequence)
      (h2 : s.update_in_progress = false) :
      seq_step s { s with observed := s.update_sequence,
                          update_in_progress := true }
  /-- A successful synchronous transfer commits the observed sequence
  (`muppet_worker` lines 106-111, `muppet_worker_dma` sync paths). -/
  | commit_observed (s : seq_state) (h : s.update_in_progress = true) :
      seq_step s { s with last_processed_sequence := s.observed,
                          update_in_progress := false }
  /-- A successful DMA completion commits the re-read `update_sequence`
  (`muppet_worker_dma` lines 169-183, success branch). -/
  | commit_current (s : seq_state) (h : s.update_in_progress = true) :
      seq_step s { s with last_processed_sequence := s.update_sequence,
                          update_in_progress := false }
  /-- A failed transfer only clears `update_in_progress`
  (`muppet_worker_dma` lines 169-183, failure branch). -/
  | commit_failure (s : seq_state) (h : s.update_in_progress = true) :
      seq_step s { s with update_in_progress := false }

/-- `seq_reach n s`: state `s` is reachable from `seq_init` in `n` steps. -/
inductive seq_reach : Nat → seq_state → Prop where
  | init : seq_reach 0 seq_init
  | step {n : Nat} {s s' : seq_state} :
      seq_reach n s → seq_step s s' → seq_reach (n + 1) s'

/-! ## Theorems -/

/-- C4 counterexample: the claim maps `InvalidArg` to `Fatal`, but
`handle_error` assigns it severity `Critical`
(`assess_error_severity`, `dma_error_handler.cpp` lines 195-196). -/
theorem C4_counterexample :
    (handle_error recovery_state_init 3 .invalid_parameter 0 0 0).1.severity
      = .critical
    ∧ error_severity_t.critical ≠ error_severity_t.fatal := by
  constructor
  · rfl
  · intro h
    exact error_severity_t.noConfusion h

/-- C4 (amended): the severity assigned by `handle_error` is exactly:
`Uninitialized → Fatal`; `InvalidArg → Critical`; `BusError → Critical`
when `retry_count ≥ 2` else `Error`; `Timeout → Error` when
`retry_count ≥ 4` else `Warning`; `Nak → Error` when `retry_count ≥ 3`
else `Warning`; `Arbitration → Warning`; `Busy → Warning` when
`retry_count ≥ 3` else `Info`; `Success → Info`. -/
theorem C4_severity_of_handle_error (rs : recovery_state_t)
    (max_retry_attempts : Nat) (error_code : error_code_t)
    (dac_index retry_count now : Nat) :
    (handle_error rs max_retry_attempts error_code dac_index retry_count
       now).1.severity =
      match error_code with
      | .not_initialized => .fatal
      | .invalid_parameter => .critical
      | .dma_error => if 2 ≤ retry_count then .critical else .error
      | .timeout => if 4 ≤ retry_count then .error else .warning
      | .nak_received => if 3 ≤ retry_count then .error else .warning
      | .arbitration_lost => .warning
      | .busy => if 3 ≤ retry_count then .warning else .info
      | .success => .info := by
  cases error_code <;>
    simp only [handle_error, assess_error_severity] <;>
    split_ifs <;> first | rfl | (exfalso; omega)

/-- C5: the recovery strategy computed by `handle_error` follows the
claimed table, read against the consecutive-error count held *at entry*
(the increment happens after the strategy is chosen).  `SYSTEM_RESTART` is
the code's name for the spec's `Escalate`, `RETRY_IMMEDIATE` for
`RetryNow`, `RETRY_WITH_DELAY` for `RetryWithBackoff`, `FALLBACK_TO_SYNC`
for `FallbackSync`. -/
theorem C5_recovery_of_handle_error (rs : recovery_state_t)
    (max_retry_attempts : Nat) (error_code : error_code_t)
    (dac_index retry_count now : Nat) (hdac : dac_index < 4) :
    (handle_error rs max_retry_attempts error_code dac_index retry_count
       now).1.recovery =
      match error_code with
      | .busy =>
          if retry_count < 2 then .retry_with_delay else .fallback_to_sync
      | .timeout =>
          if retry_count < max_retry_attempts then .retry_with_delay
          else .fallback_to_sync
      | .nak_received =>
          if retry_count < 3 then .retry_immediate else .fallback_to_sync
      | .arbitration_lost => .retry_with_delay
      | .dma_error =>
          if retry_count = 0 then .retry_immediate
          else if 5 < rs.consecutive_errors ⟨dac_index, hdac⟩ then
            .reset_peripheral
          else .fallback_to_sync
      | .not_initialized => .system_restart
      | .invalid_parameter => .system_restart
      | .success => .fallback_to_sync := by
  have hclamp : clamp_dac dac_index = ⟨dac_index, hdac⟩ := dif_pos hdac
  cases error_code <;>
    simp only [handle_error, determine_recovery_strategy, hclamp]

/-- C5 witness: a NAK on DAC 1 with one prior retry yields `RetryNow`. -/
theorem C5_witness :
    (handle_error recovery_state_init 3 .nak_received 1 1 0).1.recovery
      = .retry_immediate := by
  have h := C5_recovery_of_handle_error recovery_state_init 3 .nak_received
    1 1 0 (by decide)
  simpa using h

/-- C6: the code clears `fallback_mode` only on the 11th consecutive
success, not the 10th: `notify_success` increments the counter and then
tests `> 10` (`dma_error_handler.cpp` line 152), although its own comment
says "After 10 successful sync operations" and the spec's constant is
K = 10.  Starting in fallback mode with a zero streak, after 10 successes
on DAC 1 `fallback_mode[1]` is still set; it clears on the 11th.  Each call
also zeroes `consecutive_errors`. -/
theorem C6_code_divergence :
    ((fun rs => notify_success rs 1)^[10]
        ⟨fun _ => 0, fun _ => 0, fun i => i == 1, fun _ => 0⟩).fallback_mode 1
      = true
    ∧ ((fun rs => notify_success rs 1)^[11]
        ⟨fun _ => 0, fun _ => 0, fun i => i == 1, fun _ => 0⟩).fallback_mode 1
      = false
    ∧ (notify_success
        ⟨fun _ => 7, fun _ => 0, fun _ => false, fun _ => 0⟩ 1).consecutive_errors 1
      = 0 := by
  refine ⟨?_, ?_, ?_⟩ <;> decide

/-- Shared fact for C7: for a 16-bit input the `uint32_t` multiply never
wraps and the result fits `uint16_t`, so the code's rescale equals the
exact integer formula. -/
theorem dac_value_rescale_eq_spec {v : Nat} (hv : v ≤ 65535) :
    dac_value_rescale v = dac_value_rescale_spec v := by
  have hmul : v * 4095 ≤ 65535 * 4095 := Nat.mul_le_mul_right 4095 hv
  have hlt : v * 4095 < u32 := lt_of_le_of_lt hmul (by norm_num [u32])
  have hdiv : v * 4095 / 65535 ≤ 4095 := by
    calc v * 4095 / 65535 ≤ 65535 * 4095 / 65535 := Nat.div_le_div_right hmul
    _ = 4095 := Nat.mul_div_cancel_left 4095 (by norm_num)
  unfold dac_value_rescale dac_value_rescale_spec k_max_val k_max_value
  rw [Nat.mod_eq_of_lt hlt, Nat.mod_eq_of_lt (lt_of_le_of_lt hdiv (by norm_num))]

/-- C7 counterexample: the 16-bit value `0x8000` rescales to `0x7FF`, not
to `0x800` as the claim states (`(0x8000 × 4095) / 0xFFFF = 2047`). -/
theorem C7_counterexample :
    dac_value_rescale 0x8000 = 0x7FF ∧ (0x7FF : Nat) ≠ 0x800 := by
  constructor
  · decide
  · decide

/-- C7 (amended): for every 16-bit value the adapter's rescale equals the
exact 32-bit integer computation `(v × 4095) / 0xFFFF` (the product stays
below 2^32 and the quotient fits 12 bits), and `set_values` issues for each
channel the pair `(channel, rescaled value)`; in particular `0x8000`
rescales to `0x7FF`. -/
theorem C7_set_values_rescale (v : Nat) (hv : v ≤ 65535)
    (values : Fin 8 → Nat) (ch : Fin 8) (hvs : values ch ≤ 65535) :
    dac_value_rescale v = dac_value_rescale_spec v
    ∧ v * 4095 < u32
    ∧ dac_value_rescale v ≤ 4095
    ∧ (ch.val, dac_value_rescale_spec (values ch)) ∈ set_values values
    ∧ (set_values values).length = 8
    ∧ dac_value_rescale 0x8000 = 0x7FF := by
  have hmul : v * 4095 ≤ 65535 * 4095 := Nat.mul_le_mul_right 4095 hv
  refine ⟨dac_value_rescale_eq_spec hv,
          lt_of_le_of_lt hmul (by norm_num [u32]), ?_, ?_, ?_, by decide⟩
  · rw [dac_value_rescale_eq_spec hv]
    calc v * 4095 / 0xFFFF ≤ 65535 * 4095 / 0xFFFF := Nat.div_le_div_right hmul
    _ = 4095 := Nat.mul_div_cancel_left 4095 (by norm_num)
  · exact List.mem_map.mpr
      ⟨ch, List.mem_finRange ch, by rw [dac_value_rescale_eq_spec hvs]⟩
  · simp [set_values]

/-- C7 witness: instantiating the amended theorem at `v = 0x8000`,
channel 2. -/
theorem C7_witness :
    dac_value_rescale 0x8000 = dac_value_rescale_spec 0x8000
    ∧ ((2 : Nat), dac_value_rescale_spec 0x8000) ∈
        set_values (fun _ => 0x8000) := by
  have h := C7_set_values_rescale 0x8000 (by decide) (fun _ => 0x8000) 2
    (by decide)
  exact ⟨h.1, h.2.2.2.1⟩

/-- C8: on an initialized engine with a valid descriptor and callback,
`transfer_async` returns `Busy` and leaves the whole engine (state, stored
callback, start time, everything) unchanged when a transfer is in flight;
otherwise it latches `DMA_IN_PROGRESS`, records the start time, stores the
callback and user data, arms the pending transfer, and returns
`Success`. -/
theorem C8_transfer_async (hal : dma_i2c_hal) (t : dma_i2c_transfer_t)
    (cb ud now : Nat)
    (hinit : hal.initialized = true)
    (hbuf : t.has_data_buffer = true)
    (hlen : t.data_length ≠ 0) :
    (hal.handle.state = .dma_in_progress →
      transfer_async hal t (Option.some cb) ud now = (.busy, hal))
    ∧ (hal.handle.state ≠ .dma_in_progress →
      transfer_async hal t (Option.some cb) ud now =
        (.success,
         { hal with handle :=
           { hal.handle with
             callback := Option.some cb
             user_data := ud
             transfer_start_time := now
             pending_transfer := t
             async_operation_pending := true
             async_operation_complete := false
             state := .dma_in_progress
             last_error := .success } })) := by
  constructor
  · intro hst
    simp [transfer_async, hinit, hst]
  · intro hst
    simp [transfer_async, hinit, hst, hbuf, hlen]

/-- C8 witness: an idle initialized engine accepts a 2-byte write and
latches it. -/
theorem C8_witness :
    (transfer_async
      ⟨true, ⟨Option.none, .idle, .success, 0, 0, false, false,
              ⟨false, 0, 0, true, 0⟩⟩⟩
      ⟨true, 2, 0x10, true, 0⟩ (Option.some 7) 9 100).1 = .success := by
  have h := (C8_transfer_async
    ⟨true, ⟨Option.none, .idle, .success, 0, 0, false, false,
            ⟨false, 0, 0, true, 0⟩⟩⟩
    ⟨true, 2, 0x10, true, 0⟩ 7 9 100 rfl rfl (by decide)).2 (by decide)
  rw [h]

/-- C9 counterexample: abort during an in-flight transfer forces the
bus-failure state and the `DMA_ERROR` last error, but it does *not* invoke
the registered completion callback: `abort_transfer` calls nothing, and
because it marks the async operation complete, the engine's worker thread
skips the aborted transfer too (no invocation event is ever produced),
whereas the same in-flight engine without the abort would have delivered
the callback. -/
theorem C9_counterexample :
    (abort_transfer
      ⟨true, ⟨Option.some 7, .dma_in_progress, .success, 9, 5, true, false,
              ⟨true, 2, 0x10, true, 0⟩⟩⟩).2.handle.state = .error_dma_failure
    ∧ (abort_transfer
      ⟨true, ⟨Option.some 7, .dma_in_progress, .success, 9, 5, true, false,
              ⟨true, 2, 0x10, true, 0⟩⟩⟩).2.handle.last_error = .dma_error
    ∧ (async_worker_step (abort_transfer
        ⟨true, ⟨Option.some 7, .dma_in_progress, .success, 9, 5, true, false,
                ⟨true, 2, 0x10, true, 0⟩⟩⟩).2 .dma_error).2 = []
    ∧ (async_worker_step (abort_transfer
        ⟨true, ⟨Option.some 7, .dma_in_progress, .success, 9, 5, true, false,
                ⟨true, 2, 0x10, true, 0⟩⟩⟩).2 .success).2 = []
    ∧ (async_worker_step
        ⟨true, ⟨Option.some 7, .dma_in_progress, .success, 9, 5, true, false,
                ⟨true, 2, 0x10, true, 0⟩⟩⟩ .dma_error).2
      = [(7, .error_dma_failure, .dma_error)] := by
  refine ⟨rfl, rfl, rfl, rfl, rfl⟩

/-- C9 (amended): `abort_transfer` on an initialized engine with a
transfer in flight returns `Success`, forces the state to
`ERROR_DMA_FAILURE` and the last error to `DMA_ERROR`, and marks the async
operation complete and not pending — so the worker thread never performs
the aborted transfer and the completion callback is *not* invoked for
it. -/
theorem C9_abort_transfer (hal : dma_i2c_hal) (res : error_code_t)
    (hinit : hal.initialized = true)
    (hstate : hal.handle.state = .dma_in_progress) :
    (abort_transfer hal).1 = .success
    ∧ (abort_transfer hal).2.handle.state = .error_dma_failure
    ∧ (abort_transfer hal).2.handle.last_error = .dma_error
    ∧ (abort_transfer hal).2.handle.async_operation_pending = false
    ∧ (abort_transfer hal).2.handle.async_operation_complete = true
    ∧ async_worker_step (abort_transfer hal).2 res = ((abort_transfer hal).2, []) := by
  simp [abort_transfer, async_worker_step, hinit, hstate]

/-- C9 witness: the amended theorem at a concrete in-flight engine. -/
theorem C9_witness :
    (abort_transfer
      ⟨true, ⟨Option.some 3, .dma_in_progress, .success, 0, 0, true, false,
              ⟨true, 1, 0, true, 0⟩⟩⟩).2.handle.state = .error_dma_failure := by
  exact (C9_abort_transfer
    ⟨true, ⟨Option.some 3, .dma_in_progress, .success, 0, 0, true, false,
            ⟨true, 1, 0, true, 0⟩⟩⟩ .success rfl rfl).2.1

/-- C3: for an in-range 14-bit signed pitch-bend and an in-range 1-based
channel, the ingress handler stores
`clamp(p + 0x2000, 0, 0x3FFF) × 4` in `input_buffer[channel - 1]`;
in particular `p = 0` stores `0x8000` and `p = 0x1FFF` stores `0xFFFC`. -/
theorem C3_midi_scaling (p : Int) (c : Nat) (buf : List Nat)
    (hlen : buf.length = 16) (hp1 : -8192 ≤ p) (hp2 : p ≤ 8191)
    (hc1 : 1 ≤ c) (hc2 : c ≤ 16) :
    (set_channel_value c p buf).get? (c - 1)
      = Option.some ((max 0 (min (p + 0x2000) 0x3FFF) * 4).toNat)
    ∧ (set_channel_value c 0 buf).get? (c - 1) = Option.some 0x8000
    ∧ (set_channel_value c 8191 buf).get? (c - 1) = Option.some 0xFFFC := by
  have key : ∀ q : Int, -8192 ≤ q → q ≤ 8191 →
      (set_channel_value c q buf).get? (c - 1)
        = Option.some (((q + 8192) * 4).toNat) := by
    intro q hq1 hq2
    have hci : (c + 255) % 256 = c - 1 := by omega
    have hlt : ¬ k_total_channels ≤ c - 1 := by
      unfold k_total_channels; omega
    have hval : midi_scale q = ((q + 8192) * 4).toNat := by
      unfold midi_scale toUInt16 k_midi_pitch_zero_offset
        k_midi_pitch_14_bit_max k_midi_to_framework_scale
      have hmin : min (q + 8192) (0x3FFF : Int) = q + 8192 :=
        min_eq_left (by omega)
      rw [hmin, Int.emod_eq_of_lt (by omega) (by omega)]
    simp only [set_channel_value]
    rw [hci, if_neg hlt, hval]
    exact List.get?_set_eq_of_lt _ (by rw [hlen]; omega)
  have hmax : max 0 (min (p + 0x2000) (0x3FFF : Int)) = p + 8192 := by
    rw [min_eq_left (by omega)]
    exact max_eq_right (by omega)
  refine ⟨?_, ?_, ?_⟩
  · rw [hmax]; exact key p hp1 hp2
  · rw [key 0 (by omega) (by omega)]; decide
  · rw [key 8191 (by omega) (by omega)]; decide

/-- C3 witness: pitch-bend 0 on channel 1 stores `0x8000` at index 0. -/
theorem C3_witness :
    (set_channel_value 1 0 (List.replicate 16 0)).get? 0
      = Option.some 0x8000 := by
  have h := C3_midi_scaling 0 1 (List.replicate 16 0)
    (by simp) (by omega) (by omega) (by omega) (by omega)
  exact h.2.1

/-- C10: the 1-based channel index is decremented in `uint8_t` arithmetic,
so channel 0 wraps to 255 and is dropped, as is every channel above 16; the
input buffer is then untouched.  For channels 1..16, exactly the single
cell `input_buffer[c - 1]` is written. -/
theorem C10_channel_wraparound (c : Nat) (p : Int) (buf : List Nat)
    (hc : c < 256) (hlen : buf.length = 16) :
    ((c = 0 ∨ 17 ≤ c) → set_channel_value c p buf = buf)
    ∧ (1 ≤ c → c ≤ 16 →
        (set_channel_value c p buf).get? (c - 1) = Option.some (midi_scale p)
        ∧ ∀ j, j ≠ c - 1 →
            (set_channel_value c p buf).get? j = buf.get? j) := by
  constructor
  · intro h
    have h16 : k_total_channels ≤ (c + 255) % 256 := by
      unfold k_total_channels
      rcases h with h | h <;> omega
    simp [set_channel_value, if_pos h16]
  · intro hc1 hc2
    have hci : (c + 255) % 256 = c - 1 := by omega
    have hlt : ¬ k_total_channels ≤ c - 1 := by
      unfold k_total_channels; omega
    refine ⟨?_, ?_⟩
    · simp only [set_channel_value]
      rw [hci, if_neg hlt]
      exact List.get?_set_eq_of_lt _ (by rw [hlen]; omega)
    · intro j hj
      simp only [set_channel_value]
      rw [hci, if_neg hlt]
      exact List.get?_set_ne _ _ (fun h => hj h.symm)

/-- C10 witness: MIDI channel 0 wraps to 255 and is silently dropped. -/
theorem C10_witness :
    set_channel_value 0 5 (List.replicate 16 0) = List.replicate 16 0 := by
  exact (C10_channel_wraparound 0 5 (List.replicate 16 0)
    (by omega) (by simp)).1 (Or.inl rfl)

/-- C1 counterexample: the DMA completion path does not commit the
*observed* sequence.  The worker observes `update_sequence = 1` when it
issues the transfer (`dma_issue_check` returns observed value 1), the
transfer starts, the dispatcher increments the sequence to 2 while the DMA
is in flight, and on successful completion the worker commits
`last_processed_sequence = 2` — the value re-read at completion — rather
than the observed 1, silently acknowledging a publication it never
transmitted. -/
theorem C1_counterexample :
    dma_issue_check ⟨false, false, 1, false, false, 0, 0, 0⟩ 0
      = (⟨false, true, 1, false, false, 0, 0, 0⟩, true, 1)
    ∧ (dma_completion_handler
        (throw_muppet_in_the_mud
          (dma_async_started ⟨false, true, 1, false, false, 0, 0, 0⟩))
        0 true 5).2 = 2
    ∧ (2 : Nat) ≠ 1 := by
  refine ⟨rfl, ?_, by decide⟩
  decide

/-- C1 (amended): the synchronous worker commits the observed sequence on
success and clears `update_in_progress`; the DMA completion handler clears
`update_in_progress` in both cases and leaves `last_processed_sequence`
unchanged on failure, but on success commits the value of
`update_sequence` re-read at completion time (which may exceed the
observed sequence captured by `dma_issue_check` before the transfer); the
DMA worker's synchronous paths commit the observed sequence. -/
theorem C1_worker_commit (st : muppet_state_dma) (last duration : Nat)
    (success : Bool) (stS : muppet_state) (lastS current : Nat) :
    (dma_completion_handler st last success duration).1.update_in_progress
      = false
    ∧ (success = true →
        (dma_completion_handler st last success duration).2
          = st.update_sequence)
    ∧ (success = false →
        (dma_completion_handler st last success duration).2 = last)
    ∧ (dma_issue_check st last).2.2 = st.update_sequence
    ∧ (dma_sync_commit st current).2 = current
    ∧ (dma_sync_commit st current).1.update_in_progress = false
    ∧ ((muppet_worker_iteration stS lastS).2.2 = true →
        (muppet_worker_iteration stS lastS).2.1 = stS.update_sequence
        ∧ (muppet_worker_iteration stS lastS).1.update_in_progress = false) := by
  refine ⟨?_, ?_, ?_, ?_, rfl, rfl, ?_⟩
  · cases success <;> rfl
  · intro h; subst h; rfl
  · intro h; subst h; rfl
  · unfold dma_issue_check
    by_cases h : ((st.update_sequence != last)
        && !st.update_in_progress && !st.dma_operation_pending) = true
    · simp [h]
    · simp [h]
  · intro hissued
    unfold muppet_worker_iteration at *
    by_cases h : ((stS.update_sequence != lastS)
        && !stS.update_in_progress) = true
    · simp [h]
    · simp [h] at hissued

/-- C1 witness: on a successful DMA completion with `update_sequence = 2`
the handler commits 2 and clears `update_in_progress`. -/
theorem C1_witness :
    (dma_completion_handler ⟨false, true, 2, true, false, 0, 0, 0⟩ 0 true
       5).2 = 2
    ∧ (dma_completion_handler ⟨false, true, 2, true, false, 0, 0, 0⟩ 0 true
       5).1.update_in_progress = false := by
  have h := C1_worker_commit ⟨false, true, 2, true, false, 0, 0, 0⟩ 0 5 true
    ⟨false, false, 1⟩ 0 1
  exact ⟨h.2.1 rfl, h.1⟩

/-- Helper: `k` consecutive dispatcher/watchdog increments from a
reachable state advance the `uint32_t` sequence by `k` modulo 2^32. -/
theorem seq_reach_add_bumps (k n seqv last obs : Nat) (ip : Bool)
    (hseq : seqv < u32) (h : seq_reach n ⟨seqv, last, ip, obs⟩) :
    seq_reach (n + k) ⟨(seqv + k) % u32, last, ip, obs⟩ := by
  induction k with
  | zero =>
      simpa [Nat.mod_eq_of_lt hseq] using h
  | succ k ih =>
      have step := seq_reach.step ih (seq_step.bump ⟨(seqv + k) % u32, last, ip, obs⟩)
      rw [Nat.mod_add_mod] at step
      exact step

/-- C2 counterexample: with the `uint32_t` wraparound of
`update_sequence++`, the invariant `last_processed_sequence ≤
update_sequence` fails in a reachable state.  From the initial state the
worker observes and commits sequence 1, then 2^32 − 1 increments wrap
`update_sequence` to 0 while `last_processed_sequence` stays 1. -/
theorem C2_counterexample :
    seq_reach (2 + (u32 - 1)) ⟨0, 1, false, 1⟩
    ∧ ¬ ((1 : Nat) ≤ 0) := by
  constructor
  · have r1 : seq_reach 1 ⟨1, 0, true, 1⟩ :=
      seq_reach.step seq_reach.init
        (seq_step.observe seq_init (by decide) rfl)
    have r2 : seq_reach 2 ⟨1, 1, false, 1⟩ :=
      seq_reach.step r1 (seq_step.commit_observed ⟨1, 0, true, 1⟩ rfl)
    have r3 := seq_reach_add_bumps (u32 - 1) 2 1 1 1 false
      (by unfold u32; omega) r2
    have hwrap : (1 + (u32 - 1)) % u32 = 0 := by unfold u32; omega
    rwa [hwrap] at r3
  · omega

/-- Helper invariant for C2: along any trace short enough that the 32-bit
sequence counter cannot wrap, the sequence is bounded by the step count and
both the committed and the observed sequence never exceed it. -/
theorem C2_invariant_aux : ∀ (m : Nat) (t : seq_state), seq_reach m t →
    m + 2 < u32 →
    t.update_sequence ≤ 1 + m
    ∧ t.last_processed_sequence ≤ t.update_sequence
    ∧ t.observed ≤ t.update_sequence := by
  intro m t ht
  induction ht with
  | init =>
      intro _
      exact ⟨by decide, by decide, by decide⟩
  | @step n s s' hr hs ih =>
      intro hm
      obtain ⟨h1, h2, h3⟩ := ih (by omega)
      cases hs with
      | bump =>
          have hlt : s.update_sequence + 1 < u32 := by
            unfold u32 at *; omega
          refine ⟨?_, ?_, ?_⟩ <;> dsimp only <;>
            rw [Nat.mod_eq_of_lt hlt] <;> omega
      | observe hne hip =>
          exact ⟨by dsimp only; omega, by dsimp only; omega,
                 by dsimp only; omega⟩
      | commit_observed hip =>
          exact ⟨by dsimp only; omega, by dsimp only; omega,
                 by dsimp only; omega⟩
      | commit_current hip =>
          exact ⟨by dsimp only; omega, by dsimp only; omega,
                 by dsimp only; omega⟩
      | commit_failure hip =>
          exact ⟨by dsimp only; omega, by dsimp only; omega,
                 by dsimp only; omega⟩

/-- C2 (amended): starting from `update_sequence = 1`,
`last_processed_sequence = 0`, the invariant `last_processed_sequence ≤
update_sequence` holds in every state reachable by any interleaving of the
sequence-counter operations, *provided the trace is short enough that the
32-bit increment cannot wrap* (fewer than 2^32 − 2 steps); with the
`uint32_t` wraparound it fails after 2^32 − 1 increments. -/
theorem C2_monotonic_publication (n : Nat) (s : seq_state)
    (h : seq_reach n s) (hn : n + 2 < u32) :
    s.last_processed_sequence ≤ s.update_sequence :=
  (C2_invariant_aux n s h hn).2.1

/-- C2 witness: the invariant at the initial state. -/
theorem C2_witness :
    seq_init.last_processed_sequence ≤ seq_init.update_sequence :=
  C2_monotonic_publication 0 seq_init seq_reach.init (by decide)

end MasterOfMuppets
